import Mathlib

/-!
Shallow embedding of the nexus child lifecycle and share orchestration core
of Mayastor (src/mayastor/src/bdev/nexus/nexus_child.rs and
src/mayastor/src/bdev/nexus/nexus_share.rs), together with theorems checking
the natural-language specification against it.

Machine integers are modelled as Nat with explicit reduction mod 2^32 or
2^64 where the Rust code performs u32 or u64 arithmetic (release-mode
wrapping semantics).  Fallible operations return Except; a Rust panic
(assert failure, out-of-range drain, integer division by zero, unwrap of
None) is modelled as the value none of an Option-typed result.
-/

/-- Wrapping u32 multiplication, as in release-mode Rust. -/
def u32mul (a b : Nat) : Nat := a * b % 2 ^ 32

/-- Wrapping u32 addition, as in release-mode Rust. -/
def u32add (a b : Nat) : Nat := (a + b) % 2 ^ 32

/-- Wrapping u64 multiplication, as in release-mode Rust. -/
def u64mul (a b : Nat) : Nat := a * b % 2 ^ 64

/-- Wrapping u64 decrement (x - 1 on u64), as in release-mode Rust. -/
def u64pred (a : Nat) : Nat := (a + (2 ^ 64 - 1)) % 2 ^ 64

/-- Decidable equality for Except results, used to evaluate concrete runs. -/
instance {ε α : Type} [DecidableEq ε] [DecidableEq α] : DecidableEq (Except ε α) := fun x y =>
  match x, y with
  | Except.ok a, Except.ok b =>
    if h : a = b then Decidable.isTrue (congrArg Except.ok h)
    else Decidable.isFalse (fun hc => h (Except.ok.inj hc))
  | Except.error a, Except.error b =>
    if h : a = b then Decidable.isTrue (congrArg Except.error h)
    else Decidable.isFalse (fun hc => h (Except.error.inj hc))
  | Except.ok _, Except.error _ => Decidable.isFalse (fun hc => Except.noConfusion hc)
  | Except.error _, Except.ok _ => Decidable.isFalse (fun hc => Except.noConfusion hc)

/-- Errno code from the nix crate; modelled as its integer value. -/
abbrev Errno : Type := Nat

/-- Opaque error of the core device layer (crate::core::CoreError); the
claims treat it abstractly, so it is modelled as an integer code. -/
structure CoreError where
  code : Nat
deriving DecidableEq

/-- Opaque DMA allocation error (crate::core::DmaError); modelled as a code. -/
structure DmaError where
  code : Nat
deriving DecidableEq

/-- Descriptor obtained from Bdev.open_by_name; opaque runtime handle,
modelled as an identifying number. -/
structure Descriptor where
  id : Nat
deriving DecidableEq

/-- A bound block device, as seen through the device-I/O collaborator:
it exposes a name, a block length and a block count (nexus_child.rs uses
bdev.name, bdev.block_len, bdev.num_blocks and bdev.size_in_bytes). -/
structure Bdev where
  name : String
  block_len : Nat
  num_blocks : Nat
deriving DecidableEq

/-- Device capacity in bytes (block count times block length). -/
def Bdev.size_in_bytes (b : Bdev) : Nat := b.num_blocks * b.block_len

/-- ChildIoError from nexus_child.rs: write, read, or missing-descriptor
failures on a child device. -/
inductive ChildIoError where
  | WriteError (source : CoreError) (name : String)
  | ReadError (source : CoreError) (name : String)
  | InvalidDescriptor (name : String)
deriving DecidableEq

/-- ChildError from nexus_child.rs, one constructor per snafu variant.
ChildTooSmall carries child_size and parent_size in this order. -/
inductive ChildError where
  | ChildNotClosed
  | ChildTooSmall (child_size : Nat) (parent_size : Nat)
  | OpenChild (source : CoreError)
  | ClaimChild (source : Errno)
  | ChildReadOnly
  | ChildInvalid
  | LabelAlloc (source : DmaError)
  | LabelRead (source : ChildIoError)
  | LabelInvalid
  | PartitionTableAlloc (source : DmaError)
  | PartitionTableRead (source : ChildIoError)
  | InvalidPartitionTable
  | PartitionTableChecksum
  | OpenWithoutBdev
  | HandleCreate (source : CoreError)
deriving DecidableEq

/-- ChildState from nexus_child.rs. -/
inductive ChildState where
  | Init
  | ConfigInvalid
  | Open
  | Closed
  | Faulted
deriving DecidableEq

/-- NexusChild from nexus_child.rs.  The raw io channel pointer is an
opaque runtime handle and is not part of the modelled state; the BdevHandle
is modelled by the descriptor number it was derived from. -/
structure NexusChild where
  parent : String
  name : String
  bdev : Option Bdev
  desc : Option Descriptor
  state : ChildState
  repairing : Bool
  bdev_handle : Option Descriptor
deriving DecidableEq

/-- NexusChild.new: constructed in Init with no descriptor and no handle. -/
def NexusChild.new (name parent : String) (bdev : Option Bdev) : NexusChild :=
  { name := name
    bdev := bdev
    parent := parent
    desc := none
    state := ChildState.Init
    bdev_handle := none
    repairing := false }

/-- NexusChild.can_rw: true when the state is Open or Faulted. -/
def NexusChild.can_rw (c : NexusChild) : Bool :=
  c.state = ChildState.Open || c.state = ChildState.Faulted

/-- NexusChild.close: release the claim (an unobservable best-effort FFI
call), drop the handle and the descriptor, set the state to Closed and
return it.  The bdev binding is retained. -/
def NexusChild.close (c : NexusChild) : NexusChild × ChildState :=
  ({ c with bdev_handle := none, desc := none, state := ChildState.Closed },
   ChildState.Closed)

/-- Response of the device-I/O collaborator to Bdev.open_by_name
(name, exclusive); supplied as an environment to NexusChild.open. -/
structure OpenEnv where
  open_by_name : String → Bool → Except CoreError Descriptor

/-- NexusChild.open from nexus_child.rs: state must be Closed or Init,
a bdev must be bound, the parent size must fit in the child size (else the
state becomes ConfigInvalid and ChildTooSmall is returned), then the device
is opened exclusively, the descriptor and handle are stored, the state
becomes Open, and the child name is returned. -/
def NexusChild.openChild (c : NexusChild) (parent_size : Nat) (env : OpenEnv) :
    NexusChild × Except ChildError String :=
  if c.state ≠ ChildState.Closed ∧ c.state ≠ ChildState.Init then
    (c, Except.error ChildError.ChildNotClosed)
  else
    match c.bdev with
    | none => (c, Except.error ChildError.OpenWithoutBdev)
    | some bdev =>
      let child_size := bdev.size_in_bytes
      if parent_size > child_size then
        ({ c with state := ChildState.ConfigInvalid },
         Except.error (ChildError.ChildTooSmall child_size parent_size))
      else
        match env.open_by_name bdev.name true with
        | Except.error e => (c, Except.error (ChildError.OpenChild e))
        | Except.ok d =>
          ({ c with desc := some d, bdev_handle := some d,
                    state := ChildState.Open },
           Except.ok c.name)

/-- Modelled from the spec: a partition record of the protective MBR.
nexus_label.rs is not part of the provided sources; the spec (section 6)
requires at least a sector-count field, and nexus_child.rs reads
mbr.entries index 0 num_sectors. -/
structure MbrEntry where
  first_lba : Nat
  num_sectors : Nat
deriving DecidableEq

/-- Modelled from the spec: the protective MBR record parsed out of bytes
440 to 512 of block 0.  The MBR carries four partition records;
nexus_child.rs only inspects the first. -/
structure Pmbr where
  entries : MbrEntry × MbrEntry × MbrEntry × MbrEntry
deriving DecidableEq

/-- Modelled from the spec: a GPT header, with the fields the spec lists
(GUID, alternate LBA, partition start and end LBA, table LBA, entry size,
entry count, table checksum) plus the own-location field lba_self used by
the write path; all modelled as Nat values of their on-disk integers. -/
structure GPTHeader where
  guid : Nat
  lba_self : Nat
  lba_alt : Nat
  lba_start : Nat
  lba_end : Nat
  lba_table : Nat
  num_entries : Nat
  entry_size : Nat
  table_crc : Nat
deriving DecidableEq

/-- Modelled from the spec: one GPT partition entry (type GUID, unique
GUID, start and end LBA, attributes, name). -/
structure GptEntry where
  ent_type : Nat
  ent_guid : Nat
  ent_start : Nat
  ent_end : Nat
  ent_attr : Nat
  ent_name : String
deriving DecidableEq

/-- NexusLabel: the validated aggregate returned by probe_label. -/
structure NexusLabel where
  mbr : Pmbr
  primary : GPTHeader
  partitions : List GptEntry
  secondary : GPTHeader
deriving DecidableEq

/-- LabelData: the serialized buffers consumed by write_label, with the
fields used at its call sites in nexus_child.rs: mbr, primary (header),
table (a single partition-table buffer) and secondary (header). -/
structure LabelData where
  mbr : List Nat
  primary : List Nat
  table : List Nat
  secondary : List Nat
deriving DecidableEq

/-- One device operation issued by probe_label: a DMA buffer allocation of
a byte size, or a read of a buffer of a byte size at a byte offset. -/
inductive ProbeOp where
  | alloc (size : Nat)
  | read (offset : Nat) (size : Nat)
deriving DecidableEq

/-- Environment of probe_label: the DMA allocator and device reads of the
device-I/O collaborator (read_at takes offset and buffer size and yields
the bytes read), and the label codec of nexus_label.rs, which is not part
of the provided sources and is therefore kept abstract: parsers for the
protective MBR, a GPT header, and the partition table, and the CRC-32
checksum over partition entries, all modelled from the spec (section 4.1). -/
structure ProbeEnv where
  dma_malloc : Nat → Except DmaError Unit
  read_at : Nat → Nat → Except CoreError (List Nat)
  parsePmbr : List Nat → Except Unit Pmbr
  parseHeader : List Nat → Except Unit GPTHeader
  parseEntries : List Nat → Nat → Except Unit (List GptEntry)
  checksum : List GptEntry → Nat

/-- The partition-table block count computed at nexus_child.rs line 346:
entry_size times num_entries (u32 product), divided by the block size,
plus one (u32 addition). -/
def tableBlocks (entry_size num_entries block_size : Nat) : Nat :=
  u32add (u32mul entry_size num_entries / block_size) 1

/-- NexusChild.probe_label from nexus_child.rs: read and validate the
label.  Returns the trace of allocations and reads issued, and the result;
a result of none models a Rust panic (division by a zero block size at the
table block count, or draining two entries from a shorter partition list). -/
def NexusChild.probe_label (c : NexusChild) (env : ProbeEnv) :
    List ProbeOp × Option (Except ChildError NexusLabel) :=
  if ¬ c.can_rw then
    ([], some (Except.error ChildError.ChildReadOnly))
  else
    match c.bdev with
    | none => ([], some (Except.error ChildError.ChildInvalid))
    | some bdev =>
      match c.bdev_handle with
      | none => ([], some (Except.error ChildError.ChildInvalid))
      | some _ =>
        let block_size := bdev.block_len
        let t0 := [ProbeOp.alloc block_size]
        match env.dma_malloc block_size with
        | Except.error e => (t0, some (Except.error (ChildError.LabelAlloc e)))
        | Except.ok _ =>
          let t1 := t0 ++ [ProbeOp.read 0 block_size]
          match env.read_at 0 block_size with
          | Except.error e =>
            (t1, some (Except.error (ChildError.LabelRead
              (ChildIoError.ReadError e c.name))))
          | Except.ok buf0 =>
            match env.parsePmbr ((buf0.drop 440).take 72) with
            | Except.error _ =>
              (t1, some (Except.error ChildError.LabelInvalid))
            | Except.ok mbr =>
              let t2 := t1 ++ [ProbeOp.read block_size block_size]
              match env.read_at block_size block_size with
              | Except.error e =>
                (t2, some (Except.error (ChildError.LabelRead
                  (ChildIoError.ReadError e c.name))))
              | Except.ok buf1 =>
                match env.parseHeader buf1 with
                | Except.error _ =>
                  (t2, some (Except.error ChildError.LabelInvalid))
                | Except.ok primary =>
                  if mbr.entries.1.num_sectors ≠ 0xffffffff ∧
                      mbr.entries.1.num_sectors ≠ primary.lba_alt then
                    (t2, some (Except.error ChildError.LabelInvalid))
                  else
                    let lastOff := u64mul (u64pred bdev.num_blocks) block_size
                    let t3 := t2 ++ [ProbeOp.read lastOff block_size]
                    match env.read_at lastOff block_size with
                    | Except.error e =>
                      (t3, some (Except.error (ChildError.LabelRead
                        (ChildIoError.ReadError e c.name))))
                    | Except.ok buf2 =>
                      match env.parseHeader buf2 with
                      | Except.error _ =>
                        (t3, some (Except.error ChildError.LabelInvalid))
                      | Except.ok secondary =>
                        if primary.guid ≠ secondary.guid then
                          (t3, some (Except.error ChildError.LabelInvalid))
                        else if primary.lba_start ≠ secondary.lba_start ∨
                            primary.lba_end ≠ secondary.lba_end then
                          (t3, some (Except.error ChildError.LabelInvalid))
                        else if primary.table_crc ≠ secondary.table_crc then
                          (t3, some (Except.error ChildError.LabelInvalid))
                        else if block_size = 0 then
                          (t3, none)
                        else
                          let num_blocks := tableBlocks primary.entry_size
                            primary.num_entries block_size
                          let tblSize := u32mul num_blocks block_size
                          let t4 := t3 ++ [ProbeOp.alloc tblSize]
                          match env.dma_malloc tblSize with
                          | Except.error e =>
                            (t4, some (Except.error
                              (ChildError.PartitionTableAlloc e)))
                          | Except.ok _ =>
                            let tblOff := u64mul primary.lba_table block_size
                            let t5 := t4 ++ [ProbeOp.read tblOff tblSize]
                            match env.read_at tblOff tblSize with
                            | Except.error e =>
                              (t5, some (Except.error
                                (ChildError.PartitionTableRead
                                  (ChildIoError.ReadError e c.name))))
                            | Except.ok buf3 =>
                              match env.parseEntries buf3 primary.num_entries with
                              | Except.error _ =>
                                (t5, some (Except.error
                                  ChildError.InvalidPartitionTable))
                              | Except.ok partitions =>
                                if env.checksum partitions ≠ primary.table_crc then
                                  (t5, some (Except.error
                                    ChildError.PartitionTableChecksum))
                                else if partitions.length < 2 then
                                  (t5, none)
                                else
                                  (t5, some (Except.ok
                                    { mbr := mbr
                                      primary := primary
                                      partitions := partitions.take 2
                                      secondary := secondary }))

/-- Environment of the write path: the device write of the I/O
collaborator, a function of byte offset and buffer, yielding the byte
count written or a CoreError. -/
structure WriteEnv where
  write_at : Nat → List Nat → Except CoreError Nat

/-- NexusChild.write_at from nexus_child.rs: requires the handle, wraps a
device failure in WriteError with the child name, else InvalidDescriptor. -/
def NexusChild.writeAt (c : NexusChild) (env : WriteEnv) (offset : Nat)
    (buf : List Nat) : Except ChildIoError Nat :=
  match c.bdev_handle with
  | some _ =>
    match env.write_at offset buf with
    | Except.ok n => Except.ok n
    | Except.error e => Except.error (ChildIoError.WriteError e c.name)
  | none => Except.error (ChildIoError.InvalidDescriptor c.name)

/-- The five write requests of write_label in the order the code issues
them (nexus_child.rs lines 391 to 408): the protective MBR at offset 0,
the primary GPT header at block_size times primary.lba_self, the partition
table buffer at block_size times primary.lba_table, the same table buffer
at block_size times secondary.lba_table, and the secondary GPT header at
block_size times secondary.lba_self; all offset products in u64. -/
def writeRequests (label : NexusLabel) (data : LabelData) (block_size : Nat) :
    List (Nat × List Nat) :=
  [(0, data.mbr),
   (u64mul block_size label.primary.lba_self, data.primary),
   (u64mul block_size label.primary.lba_table, data.table),
   (u64mul block_size label.secondary.lba_table, data.table),
   (u64mul block_size label.secondary.lba_self, data.secondary)]

/-- Whether one write request of a child would succeed: a handle is held
and the device write returns ok. -/
def writeOk (c : NexusChild) (env : WriteEnv) (r : Nat × List Nat) : Bool :=
  c.bdev_handle.isSome && (env.write_at r.1 r.2).toBool

/-- NexusChild.write_label from nexus_child.rs: writes the protective MBR,
the primary GPT header, the primary partition table, the secondary
partition table and the secondary GPT header, in this order, aborting at
the first failing write.  Returns the trace of attempted write requests
together with the result. -/
def NexusChild.write_label (c : NexusChild) (env : WriteEnv)
    (label : NexusLabel) (data : LabelData) (block_size : Nat) :
    List (Nat × List Nat) × Except ChildIoError Unit :=
  let r0 := (0, data.mbr)
  match c.writeAt env r0.1 r0.2 with
  | Except.error e => ([r0], Except.error e)
  | Except.ok _ =>
    let r1 := (u64mul block_size label.primary.lba_self, data.primary)
    match c.writeAt env r1.1 r1.2 with
    | Except.error e => ([r0, r1], Except.error e)
    | Except.ok _ =>
      let r2 := (u64mul block_size label.primary.lba_table, data.table)
      match c.writeAt env r2.1 r2.2 with
      | Except.error e => ([r0, r1, r2], Except.error e)
      | Except.ok _ =>
        let r3 := (u64mul block_size label.secondary.lba_table, data.table)
        match c.writeAt env r3.1 r3.2 with
        | Except.error e => ([r0, r1, r2, r3], Except.error e)
        | Except.ok _ =>
          let r4 := (u64mul block_size label.secondary.lba_self, data.secondary)
          match c.writeAt env r4.1 r4.2 with
          | Except.error e => ([r0, r1, r2, r3, r4], Except.error e)
          | Except.ok _ => ([r0, r1, r2, r3, r4], Except.ok ())

/-- ShareProtocolNexus from the RPC layer: loop-block (nbd), iscsi and
nvmf front ends; the i32 values follow the protobuf enum order. -/
inductive ShareProtocolNexus where
  | NbdFe
  | IscsiFe
  | NvmfFe
deriving DecidableEq

/-- The i32 value of a protocol variant (the Rust cast as i32). -/
def ShareProtocolNexus.toI32 : ShareProtocolNexus → Nat
  | ShareProtocolNexus.NbdFe => 0
  | ShareProtocolNexus.IscsiFe => 1
  | ShareProtocolNexus.NvmfFe => 2

/-- Nbd disk handle created by NbdDisk.create; exposes get_path. -/
structure NbdDisk where
  path : String
deriving DecidableEq

/-- Iscsi target handle created by NexusIscsiTarget.create; exposes
get_iqn. -/
structure NexusIscsiTarget where
  iqn : String
deriving DecidableEq

/-- The nexus_bdev Error variants used by nexus_share.rs, modelled from
their construction sites (the full enum lives outside the provided
sources); backend and crypto sources are carried as integer codes. -/
inductive NexusError where
  | AlreadyShared (name : String)
  | CreateCryptoBdev (source : Errno) (name : String)
  | ShareNbdNexus (source : Nat) (name : String)
  | ShareIscsiNexus (source : Nat) (name : String)
  | InvalidShareProtocol (sp_value : Nat)
  | NotShared (name : String)
  | DestroyCryptoBdev (source : Errno) (name : String)
deriving DecidableEq

/-- Nexus export state: the fields of the Nexus used by nexus_share.rs. -/
structure Nexus where
  name : String
  share_handle : Option String
  share_protocol : Option ShareProtocolNexus
  nbd_disk : Option NbdDisk
  iscsi_target : Option NexusIscsiTarget
deriving DecidableEq

/-- A resource creation performed during share: a crypto layer over a base
device under a layer name, an nbd disk, or an iscsi target. -/
inductive ShareEffect where
  | cryptoCreated (base : String) (cname : String)
  | nbdCreated (name : String)
  | iscsiCreated (name : String)
deriving DecidableEq

/-- Environment of share: the errno returned by create_crypto_disk (zero
means success) and the responses of the two export backends. -/
structure ShareEnv where
  crypto_errno : Errno
  nbd_create : String → Except Nat NbdDisk
  iscsi_create : String → Except Nat NexusIscsiTarget

/-- True when a Rust CString.new of this string would fail (an interior
NUL byte), making the unwrap in nexus_share.rs panic. -/
def hasNulByte (s : String) : Bool :=
  s.data.any (fun c => c == Char.ofNat 0)

/-- Nexus.share from nexus_share.rs: asserts that share_handle is None
(modelled as a panic, result none), fails AlreadyShared when a protocol is
recorded, optionally creates the crypto layer named crypto- plus the nexus
name (aborting with CreateCryptoBdev on a nonzero errno), dispatches on
the protocol (NvmfFe returns InvalidShareProtocol at once), and on backend
success stores the backend handle and sets share_handle and share_protocol.
Returns the updated nexus, the resources created, and the result. -/
def Nexus.share (n : Nexus) (share_protocol : ShareProtocolNexus)
    (key : Option String) (env : ShareEnv) :
    Option (Nexus × List ShareEffect × Except NexusError String) :=
  if n.share_handle ≠ none then
    none
  else if n.share_protocol.isSome then
    some (n, [], Except.error (NexusError.AlreadyShared n.name))
  else
    let afterCrypto : Option (String × List ShareEffect) ⊕ Errno :=
      match key with
      | some k =>
        if hasNulByte n.name || hasNulByte k then Sum.inl none
        else
          let cname := "crypto-" ++ n.name
          if env.crypto_errno = 0 then
            Sum.inl (some (cname, [ShareEffect.cryptoCreated n.name cname]))
          else Sum.inr env.crypto_errno
      | none => Sum.inl (some (n.name, []))
    match afterCrypto with
    | Sum.inl none => none
    | Sum.inr e =>
      some (n, [], Except.error (NexusError.CreateCryptoBdev e n.name))
    | Sum.inl (some (name, effs)) =>
      match share_protocol with
      | ShareProtocolNexus.NbdFe =>
        match env.nbd_create name with
        | Except.error e =>
          some (n, effs, Except.error (NexusError.ShareNbdNexus e n.name))
        | Except.ok disk =>
          some ({ n with nbd_disk := some disk,
                         share_handle := some name,
                         share_protocol := some ShareProtocolNexus.NbdFe },
                effs ++ [ShareEffect.nbdCreated name],
                Except.ok disk.path)
      | ShareProtocolNexus.IscsiFe =>
        match env.iscsi_create name with
        | Except.error e =>
          some (n, effs, Except.error (NexusError.ShareIscsiNexus e n.name))
        | Except.ok tgt =>
          some ({ n with iscsi_target := some tgt,
                         share_handle := some name,
                         share_protocol := some ShareProtocolNexus.IscsiFe },
                effs ++ [ShareEffect.iscsiCreated name],
                Except.ok tgt.iqn)
      | ShareProtocolNexus.NvmfFe =>
        some (n, effs, Except.error (NexusError.InvalidShareProtocol
          (ShareProtocolNexus.NvmfFe.toI32)))

/-- Environment of unshare: the bdev lookup by name, and the errno
delivered by the crypto delete completion (zero means success). -/
structure UnshareEnv where
  lookup_by_name : String → Option Bdev
  delete_crypto_errno : Errno

/-- Nexus.unshare from nexus_share.rs: destroys the active backend (nbd
teardown is fire-and-forget, iscsi teardown does not fail), fails NotShared
when no protocol or no backend handle is recorded, InvalidShareProtocol for
a recorded NvmfFe; then takes share_handle (an unwrap of None is a panic,
result none), looks the shared bdev up, and if its name differs from the
nexus name destroys the crypto layer, a nonzero errno propagating as
DestroyCryptoBdev before share_protocol is cleared; on completion of the
remaining path clears share_protocol. -/
def Nexus.unshare (n : Nexus) (env : UnshareEnv) :
    Option (Nexus × Except NexusError Unit) :=
  let backend : Option (Option Nexus) :=
    match n.share_protocol with
    | some ShareProtocolNexus.NbdFe =>
      match n.nbd_disk with
      | some _ => some (some { n with nbd_disk := none })
      | none => some none
    | some ShareProtocolNexus.IscsiFe =>
      match n.iscsi_target with
      | some _ => some (some { n with iscsi_target := none })
      | none => some none
    | some ShareProtocolNexus.NvmfFe => none
    | none => some none
  match backend with
  | none =>
    some (n, Except.error (NexusError.InvalidShareProtocol
      (ShareProtocolNexus.NvmfFe.toI32)))
  | some none => some (n, Except.error (NexusError.NotShared n.name))
  | some (some n1) =>
    match n1.share_handle with
    | none => none
    | some bdev_name =>
      let n2 := { n1 with share_handle := none }
      match env.lookup_by_name bdev_name with
      | some bdev =>
        if n2.name ≠ bdev.name then
          if env.delete_crypto_errno ≠ 0 then
            some (n2, Except.error (NexusError.DestroyCryptoBdev
              env.delete_crypto_errno n2.name))
          else
            some ({ n2 with share_protocol := none }, Except.ok ())
        else
          some ({ n2 with share_protocol := none }, Except.ok ())
      | none =>
        some ({ n2 with share_protocol := none }, Except.ok ())

/-- The nexus export-state invariant: a share handle is recorded exactly
when a share protocol is recorded. -/
def exportInvariant (n : Nexus) : Prop :=
  n.share_handle.isSome = n.share_protocol.isSome

instance (n : Nexus) : Decidable (exportInvariant n) := by
  unfold exportInvariant; infer_instance

/-- The write order asserted by the specification for write_label, stated
from the words of claim C1 for comparison with the order the code issues:
the protective MBR at offset 0, the primary table at primary.lba_table
times block_size, the secondary table, the secondary header, then the
primary header. -/
def specWriteOrder (label : NexusLabel) (data : LabelData) (block_size : Nat) :
    List (Nat × List Nat) :=
  [(0, data.mbr),
   (u64mul label.primary.lba_table block_size, data.table),
   (u64mul label.secondary.lba_table block_size, data.table),
   (u64mul label.secondary.lba_self block_size, data.secondary),
   (u64mul label.primary.lba_self block_size, data.primary)]

/-- A concrete bound device: 512-byte blocks, 100 blocks. -/
def bdev0 : Bdev := { name := "b", block_len := 512, num_blocks := 100 }

/-- A concrete protective-MBR record whose first entry carries the
whole-disk sentinel sector count. -/
def mbrEnt0 : MbrEntry := { first_lba := 1, num_sectors := 0xffffffff }

/-- A concrete protective MBR. -/
def mbr0 : Pmbr := { entries := (mbrEnt0, mbrEnt0, mbrEnt0, mbrEnt0) }

/-- A concrete GPT header with 128 entries of 128 bytes and stored table
checksum 7. -/
def hdr0 : GPTHeader :=
  { guid := 1, lba_self := 1, lba_alt := 99, lba_start := 34, lba_end := 66,
    lba_table := 2, num_entries := 128, entry_size := 128, table_crc := 7 }

/-- The matching secondary GPT header located at LBA 99 with its table at
LBA 67. -/
def hdr1 : GPTHeader := { hdr0 with lba_self := 99, lba_table := 67 }

/-- A concrete partition entry. -/
def ent0 : GptEntry :=
  { ent_type := 10, ent_guid := 11, ent_start := 34, ent_end := 50,
    ent_attr := 0, ent_name := "p0" }

/-- A second concrete partition entry. -/
def ent1 : GptEntry :=
  { ent0 with
    ent_guid := 12
    ent_start := 51
    ent_end := 66
    ent_name := "p1" }

/-- A child in the Open state with a bound device, descriptor and handle. -/
def childOpen : NexusChild :=
  { parent := "p", name := "c", bdev := some bdev0, desc := some ⟨1⟩,
    state := ChildState.Open, repairing := false, bdev_handle := some ⟨1⟩ }

/-- A probe environment whose allocations and reads all succeed and whose
codec parses the concrete MBR and header above, yields the given entry
list, and computes the given checksum value. -/
def probeEnvOf (entries : List GptEntry) (crc : Nat) : ProbeEnv :=
  { dma_malloc := fun _ => Except.ok ()
    read_at := fun _ _ => Except.ok []
    parsePmbr := fun _ => Except.ok mbr0
    parseHeader := fun _ => Except.ok hdr0
    parseEntries := fun _ _ => Except.ok entries
    checksum := fun _ => crc }

/-- Environment for the checksum-mismatch run: two entries, computed
checksum 8 against stored checksum 7. -/
def envChk : ProbeEnv := probeEnvOf [ent0, ent1] 8

/-- Environment for the single-entry run: matching checksum but only one
partition entry parsed. -/
def envOne : ProbeEnv := probeEnvOf [ent0] 7

/-- Environment for a fully successful probe run with two entries. -/
def envTwo : ProbeEnv := probeEnvOf [ent0, ent1] 7

/-- A write environment in which every device write succeeds. -/
def envW : WriteEnv := { write_at := fun _ _ => Except.ok 512 }

/-- A concrete label whose primary and secondary headers sit at distinct
locations with distinct table locations. -/
def labelW : NexusLabel :=
  { mbr := mbr0, primary := hdr0, partitions := [], secondary := hdr1 }

/-- Concrete serialized label buffers, pairwise distinct. -/
def dataW : LabelData :=
  { mbr := [1], primary := [2], table := [3], secondary := [4] }

/-- The 1 GiB device of the concrete capacity scenario in the spec. -/
def bdevG : Bdev := { name := "g", block_len := 512, num_blocks := 2097152 }

/-- A never-opened child bound to the 1 GiB device. -/
def childG : NexusChild :=
  { parent := "p", name := "g", bdev := some bdevG, desc := none,
    state := ChildState.Init, repairing := false, bdev_handle := none }

/-- An open environment in which the exclusive device open succeeds. -/
def envO : OpenEnv := { open_by_name := fun _ _ => Except.ok ⟨1⟩ }

/-- A concrete unshared nexus. -/
def nexU : Nexus :=
  { name := "nex", share_handle := none, share_protocol := none,
    nbd_disk := none, iscsi_target := none }

/-- A share environment in which crypto creation succeeds and both
backends fail. -/
def envS : ShareEnv :=
  { crypto_errno := 0
    nbd_create := fun _ => Except.error 1
    iscsi_create := fun _ => Except.error 1 }

/-- A nexus shared over iscsi through a crypto layer. -/
def nexC : Nexus :=
  { name := "nex", share_handle := some "crypto-nex",
    share_protocol := some ShareProtocolNexus.IscsiFe,
    nbd_disk := none, iscsi_target := some ⟨"iqn.t"⟩ }

/-- An unshare environment in which the shared bdev is found under its own
name and crypto destruction fails with errno 5. -/
def envU : UnshareEnv :=
  { lookup_by_name := fun s => some { name := s, block_len := 512, num_blocks := 0 }
    delete_crypto_errno := 5 }

/-- The nexus state left behind by the failing crypto teardown: the share
handle is cleared while the share protocol is retained. -/
def nexCAfter : Nexus :=
  { name := "nex", share_handle := none,
    share_protocol := some ShareProtocolNexus.IscsiFe,
    nbd_disk := none, iscsi_target := none }


/-- Claim C9 (confirmed): can_rw returns true exactly when the state is
Open or Faulted, and false exactly when the state is Init, ConfigInvalid
or Closed. -/
theorem can_rw_states (c : NexusChild) :
    (c.can_rw = true ↔ (c.state = ChildState.Open ∨ c.state = ChildState.Faulted)) ∧
    (c.can_rw = false ↔ (c.state = ChildState.Init ∨ c.state = ChildState.ConfigInvalid ∨
      c.state = ChildState.Closed)) := by
  cases h : c.state <;> simp [NexusChild.can_rw, h]

/-- Witness for C9: a freshly constructed child is in Init and cannot be
read or written. -/
theorem can_rw_states_witness :
    (NexusChild.new "c" "p" none).can_rw = false :=
  (can_rw_states (NexusChild.new "c" "p" none)).2.mpr (Or.inl rfl)

/-- Claim C8 (confirmed): close is total and idempotent: from any state it
returns Closed, leaves the state Closed, drops the descriptor and handle,
and keeps the bdev binding and the remaining fields unchanged. -/
theorem close_total_idempotent (c : NexusChild) :
    c.close.2 = ChildState.Closed ∧
    c.close.1.state = ChildState.Closed ∧
    c.close.1.desc = none ∧
    c.close.1.bdev_handle = none ∧
    c.close.1.bdev = c.bdev ∧
    c.close.1.name = c.name ∧
    c.close.1.parent = c.parent ∧
    c.close.1.repairing = c.repairing ∧
    c.close.1.close = c.close :=
  ⟨rfl, rfl, rfl, rfl, rfl, rfl, rfl, rfl, rfl⟩

/-- Claim C5 (confirmed): for a child in Init or Closed with a bound
device, open fails with ChildTooSmall carrying child_size and parent_size
and sets the state to ConfigInvalid exactly when parent_size exceeds the
child capacity; and on any failure with ChildNotClosed, OpenWithoutBdev or
OpenChild the child is unchanged. -/
theorem open_too_small_iff (c : NexusChild) (psize : Nat) (env : OpenEnv)
    (b : Bdev) :
    ((c.state = ChildState.Init ∨ c.state = ChildState.Closed) →
      c.bdev = some b →
      (((c.openChild psize env).2 =
          Except.error (ChildError.ChildTooSmall b.size_in_bytes psize) ∧
        (c.openChild psize env).1.state = ChildState.ConfigInvalid) ↔
        psize > b.size_in_bytes)) ∧
    (∀ e : CoreError,
      ((c.openChild psize env).2 = Except.error ChildError.ChildNotClosed ∨
       (c.openChild psize env).2 = Except.error ChildError.OpenWithoutBdev ∨
       (c.openChild psize env).2 = Except.error (ChildError.OpenChild e)) →
      (c.openChild psize env).1 = c) := by
  constructor
  · intro hstate hb
    have hcond : ¬ (c.state ≠ ChildState.Closed ∧ c.state ≠ ChildState.Init) := by
      rcases hstate with h | h <;> simp [h]
    by_cases hgt : psize > b.size_in_bytes
    · simp [NexusChild.openChild, hcond, hb, hgt]
    · rcases ho : env.open_by_name b.name true with e | d <;>
        simp [NexusChild.openChild, hcond, hb, hgt, ho]
  · intro e h
    by_cases hcond : c.state ≠ ChildState.Closed ∧ c.state ≠ ChildState.Init
    · simp [NexusChild.openChild, hcond]
    · rcases hb : c.bdev with _ | b2
      · simp [NexusChild.openChild, hcond, hb]
      · by_cases hgt : psize > b2.size_in_bytes
        · exfalso
          simp [NexusChild.openChild, hcond, hb, hgt] at h
        · rcases ho : env.open_by_name b2.name true with e2 | d
          · simp [NexusChild.openChild, hcond, hb, hgt, ho]
          · exfalso
            simp [NexusChild.openChild, hcond, hb, hgt, ho] at h

/-- Witness for C5: the concrete capacity scenario of the spec, a 1 GiB
child against a 2 GiB parent requirement. -/
theorem open_too_small_iff_witness :
    (childG.openChild 2147483648 envO).2 =
      Except.error (ChildError.ChildTooSmall 1073741824 2147483648) ∧
    (childG.openChild 2147483648 envO).1.state = ChildState.ConfigInvalid :=
  ((open_too_small_iff childG 2147483648 envO bdevG).1 (Or.inl rfl) rfl).mpr
    (by decide)

/-- Claim C7 (confirmed): when every read and parse step succeeds, the
protective MBR agrees with the primary header, the primary and secondary
headers agree on GUID, start and end LBA and stored table checksum, and
the partition entries parse, but the recomputed checksum differs from the
stored one, probe_label fails with PartitionTableChecksum, an error
distinct from InvalidPartitionTable and from LabelInvalid. -/
theorem probe_label_checksum_mismatch (c : NexusChild) (env : ProbeEnv)
    (bdev : Bdev) (d : Descriptor)
    (buf0 buf1 buf2 buf3 : List Nat) (mbr : Pmbr)
    (primary secondary : GPTHeader) (parts : List GptEntry)
    (hrw : c.can_rw = true)
    (hb : c.bdev = some bdev)
    (hh : c.bdev_handle = some d)
    (ha1 : env.dma_malloc bdev.block_len = Except.ok ())
    (hr1 : env.read_at 0 bdev.block_len = Except.ok buf0)
    (hp1 : env.parsePmbr ((buf0.drop 440).take 72) = Except.ok mbr)
    (hr2 : env.read_at bdev.block_len bdev.block_len = Except.ok buf1)
    (hp2 : env.parseHeader buf1 = Except.ok primary)
    (hmbr : mbr.entries.1.num_sectors = 0xffffffff ∨
      mbr.entries.1.num_sectors = primary.lba_alt)
    (hr3 : env.read_at (u64mul (u64pred bdev.num_blocks) bdev.block_len)
      bdev.block_len = Except.ok buf2)
    (hp3 : env.parseHeader buf2 = Except.ok secondary)
    (hguid : primary.guid = secondary.guid)
    (hstart : primary.lba_start = secondary.lba_start)
    (hend : primary.lba_end = secondary.lba_end)
    (hcrc : primary.table_crc = secondary.table_crc)
    (hbs : bdev.block_len ≠ 0)
    (ha2 : env.dma_malloc (u32mul (tableBlocks primary.entry_size
      primary.num_entries bdev.block_len) bdev.block_len) = Except.ok ())
    (hr4 : env.read_at (u64mul primary.lba_table bdev.block_len)
      (u32mul (tableBlocks primary.entry_size primary.num_entries
        bdev.block_len) bdev.block_len) = Except.ok buf3)
    (hp4 : env.parseEntries buf3 primary.num_entries = Except.ok parts)
    (hsum : env.checksum parts ≠ primary.table_crc) :
    (c.probe_label env).2 =
      some (Except.error ChildError.PartitionTableChecksum) ∧
    ChildError.PartitionTableChecksum ≠ ChildError.InvalidPartitionTable ∧
    ChildError.PartitionTableChecksum ≠ ChildError.LabelInvalid := by
  refine ⟨?_, by decide, by decide⟩
  have hmbr2 : ¬ (mbr.entries.1.num_sectors ≠ 0xffffffff ∧
      mbr.entries.1.num_sectors ≠ primary.lba_alt) := by
    rcases hmbr with h | h <;> simp [h]
  have hsum2 : env.checksum parts ≠ secondary.table_crc := hcrc ▸ hsum
  simp [NexusChild.probe_label, hrw, hb, hh, ha1, hr1, hp1, hr2, hp2, hmbr2,
    hr3, hp3, hguid, hstart, hend, hcrc, hbs, ha2, hr4, hp4, hsum, hsum2]

/-- Witness for C7: a concrete run in which all structural checks pass but
the computed checksum 8 differs from the stored checksum 7. -/
theorem probe_label_checksum_mismatch_witness :
    (childOpen.probe_label envChk).2 =
      some (Except.error ChildError.PartitionTableChecksum) ∧
    ChildError.PartitionTableChecksum ≠ ChildError.InvalidPartitionTable ∧
    ChildError.PartitionTableChecksum ≠ ChildError.LabelInvalid :=
  probe_label_checksum_mismatch childOpen envChk bdev0 ⟨1⟩ [] [] [] [] mbr0
    hdr0 hdr0 [ent0, ent1] rfl rfl rfl rfl rfl rfl rfl rfl (Or.inl rfl) rfl
    rfl rfl rfl rfl rfl (by decide) rfl rfl rfl (by decide)

/-- Claim C2 (code bug): on a disk whose primary GPT header records a
single partition entry and whose label otherwise validates fully,
probe_label panics: the drain of the first two entries is out of range on
a one-element partition list, modelled as the result none. -/
theorem probe_label_panics_on_single_entry :
    (childOpen.probe_label envOne).2 = none := by decide

/-- Counterexample to claim C4: with entry size 128, entry count 128 and
block size 512, probe_label allocates and reads 33 blocks (16896 bytes),
not the ceiling 32 blocks (16384 bytes) the claim states: its fifth trace
operation is the 16896-byte allocation. -/
theorem probe_table_size_cex :
    (childOpen.probe_label envTwo).1.getD 4 (ProbeOp.alloc 0) =
      ProbeOp.alloc 16896 ∧
    ProbeOp.alloc 16896 ≠ ProbeOp.alloc (((128 * 128 + 512 - 1) / 512) * 512) := by
  decide

/-- Claim C4 (corrected): probe_label computes the partition-table block
count as the u32 quotient entry_size times num_entries over block_size,
plus one (tableBlocks), allocates the u32 product of that count with the
block size and reads exactly that many bytes at the primary header
recorded table offset; absent u32 wrap-around the count is one more than
the ceiling when the block size divides the table byte size, and equal to
the ceiling otherwise. -/
theorem probe_table_size_amended (c : NexusChild) (env : ProbeEnv)
    (bdev : Bdev) (d : Descriptor)
    (buf0 buf1 buf2 buf3 : List Nat) (mbr : Pmbr)
    (primary secondary : GPTHeader)
    (hrw : c.can_rw = true)
    (hb : c.bdev = some bdev)
    (hh : c.bdev_handle = some d)
    (ha1 : env.dma_malloc bdev.block_len = Except.ok ())
    (hr1 : env.read_at 0 bdev.block_len = Except.ok buf0)
    (hp1 : env.parsePmbr ((buf0.drop 440).take 72) = Except.ok mbr)
    (hr2 : env.read_at bdev.block_len bdev.block_len = Except.ok buf1)
    (hp2 : env.parseHeader buf1 = Except.ok primary)
    (hmbr : mbr.entries.1.num_sectors = 0xffffffff ∨
      mbr.entries.1.num_sectors = primary.lba_alt)
    (hr3 : env.read_at (u64mul (u64pred bdev.num_blocks) bdev.block_len)
      bdev.block_len = Except.ok buf2)
    (hp3 : env.parseHeader buf2 = Except.ok secondary)
    (hguid : primary.guid = secondary.guid)
    (hstart : primary.lba_start = secondary.lba_start)
    (hend : primary.lba_end = secondary.lba_end)
    (hcrc : primary.table_crc = secondary.table_crc)
    (hbs : bdev.block_len ≠ 0)
    (ha2 : env.dma_malloc (u32mul (tableBlocks primary.entry_size
      primary.num_entries bdev.block_len) bdev.block_len) = Except.ok ())
    (hr4 : env.read_at (u64mul primary.lba_table bdev.block_len)
      (u32mul (tableBlocks primary.entry_size primary.num_entries
        bdev.block_len) bdev.block_len) = Except.ok buf3) :
    ((c.probe_label env).1.getD 4 (ProbeOp.alloc 0) =
      ProbeOp.alloc (u32mul (tableBlocks primary.entry_size
        primary.num_entries bdev.block_len) bdev.block_len) ∧
     (c.probe_label env).1.getD 5 (ProbeOp.alloc 0) =
      ProbeOp.read (u64mul primary.lba_table bdev.block_len)
        (u32mul (tableBlocks primary.entry_size primary.num_entries
          bdev.block_len) bdev.block_len)) ∧
    (∀ E N B : Nat, 0 < B → E * N < 2 ^ 32 → E * N / B + 1 < 2 ^ 32 →
      tableBlocks E N B =
        (E * N + B - 1) / B + (if B ∣ E * N then 1 else 0)) := by
  constructor
  · have hmbr2 : ¬ (mbr.entries.1.num_sectors ≠ 0xffffffff ∧
        mbr.entries.1.num_sectors ≠ primary.lba_alt) := by
      rcases hmbr with h | h <;> simp [h]
    rcases hp4 : env.parseEntries buf3 primary.num_entries with e | parts
    · simp [NexusChild.probe_label, hrw, hb, hh, ha1, hr1, hp1, hr2, hp2,
        hmbr2, hr3, hp3, hguid, hstart, hend, hcrc, hbs, ha2, hr4, hp4]
    · by_cases hck : env.checksum parts = secondary.table_crc
      · by_cases hlen : parts.length < 2 <;>
          simp [NexusChild.probe_label, hrw, hb, hh, ha1, hr1, hp1, hr2,
            hp2, hmbr2, hr3, hp3, hguid, hstart, hend, hcrc, hbs, ha2,
            hr4, hp4, hck, hlen]
      · simp [NexusChild.probe_label, hrw, hb, hh, ha1, hr1, hp1, hr2,
          hp2, hmbr2, hr3, hp3, hguid, hstart, hend, hcrc, hbs, ha2,
          hr4, hp4, hck]
  · intro E N B hB hEN hq
    have hmul : u32mul E N = E * N := Nat.mod_eq_of_lt hEN
    have hadd : u32add (E * N / B) 1 = E * N / B + 1 := Nat.mod_eq_of_lt hq
    have hb1 : (B - 1) / B = 0 := Nat.div_eq_of_lt (by omega)
    have hb2 : (B - 1) % B = B - 1 := Nat.mod_eq_of_lt (by omega)
    have hceil : (E * N + (B - 1)) / B =
        E * N / B + (B - 1) / B + if B ≤ E * N % B + (B - 1) % B then 1 else 0 :=
      Nat.add_div hB
    have hsplit : E * N + B - 1 = E * N + (B - 1) := by omega
    by_cases hz : E * N % B = 0
    · have hdvd : B ∣ E * N := Nat.dvd_of_mod_eq_zero hz
      have hcond : ¬ B ≤ E * N % B + (B - 1) % B := by
        rw [hz, hb2]; omega
      simp only [tableBlocks]
      rw [hmul, hadd, hsplit, hceil, hb1, if_neg hcond, if_pos hdvd]
    · have hdvd : ¬ B ∣ E * N := by
        intro hcon
        obtain ⟨k, hk⟩ := hcon
        apply hz
        rw [hk, Nat.mul_mod_right]
      have hcond : B ≤ E * N % B + (B - 1) % B := by
        rw [hb2]; omega
      simp only [tableBlocks]
      rw [hmul, hadd, hsplit, hceil, hb1, if_pos hcond, if_neg hdvd]

/-- Witness for C4: the concrete successful run with entry size 128, 128
entries and 512-byte blocks, allocating and reading 16896 bytes at byte
offset 1024, together with the arithmetic instance at those numbers. -/
theorem probe_table_size_amended_witness :
    ((childOpen.probe_label envTwo).1.getD 4 (ProbeOp.alloc 0) =
      ProbeOp.alloc (u32mul (tableBlocks hdr0.entry_size hdr0.num_entries
        bdev0.block_len) bdev0.block_len) ∧
     (childOpen.probe_label envTwo).1.getD 5 (ProbeOp.alloc 0) =
      ProbeOp.read (u64mul hdr0.lba_table bdev0.block_len)
        (u32mul (tableBlocks hdr0.entry_size hdr0.num_entries
          bdev0.block_len) bdev0.block_len)) ∧
    (∀ E N B : Nat, 0 < B → E * N < 2 ^ 32 → E * N / B + 1 < 2 ^ 32 →
      tableBlocks E N B =
        (E * N + B - 1) / B + (if B ∣ E * N then 1 else 0)) :=
  probe_table_size_amended childOpen envTwo bdev0 ⟨1⟩ [] [] [] [] mbr0
    hdr0 hdr0 rfl rfl rfl rfl rfl rfl rfl rfl (Or.inl rfl) rfl rfl rfl rfl
    rfl rfl (by decide) rfl rfl

/-- Evaluation of Except.toBool on a success value. -/
@[simp] theorem except_toBool_ok {e a : Type} (x : a) :
    (Except.ok x : Except e a).toBool = true := rfl

/-- Evaluation of Except.toBool on an error value. -/
@[simp] theorem except_toBool_error {e a : Type} (x : e) :
    (Except.error x : Except e a).toBool = false := rfl

/-- Counterexample to claim C1: at a concrete label, data and block size
with every write succeeding, the sequence of writes issued by write_label
differs from the order the claim states (the second write is the primary
GPT header, not the primary partition table). -/
theorem write_label_order_cex :
    (childOpen.write_label envW labelW dataW 512).1 ≠
      specWriteOrder labelW dataW 512 := by decide

/-- Claim C1 (corrected): write_label issues at most the five writes of
writeRequests, in this order: protective MBR at offset 0, primary GPT
header, primary partition table, secondary partition table, secondary GPT
header; on success it issues exactly those five, and any write failure
aborts the remaining sequence at the first failing write. -/
theorem write_label_order_amended (c : NexusChild) (env : WriteEnv)
    (label : NexusLabel) (data : LabelData) (block_size : Nat) :
    ((c.write_label env label data block_size).1 =
        writeRequests label data block_size ∧
     (c.write_label env label data block_size).2 = Except.ok () ∧
     (∀ j, j < 5 → writeOk c env
       ((writeRequests label data block_size).getD j (0, [])) = true)) ∨
    (∃ k, k < 5 ∧
      (c.write_label env label data block_size).1 =
        (writeRequests label data block_size).take (k + 1) ∧
      (c.write_label env label data block_size).2.toBool = false ∧
      writeOk c env
        ((writeRequests label data block_size).getD k (0, [])) = false ∧
      (∀ j, j < k → writeOk c env
        ((writeRequests label data block_size).getD j (0, [])) = true)) := by
  rcases hh : c.bdev_handle with _ | d
  · right
    refine ⟨0, by omega, ?_, ?_, ?_, ?_⟩ <;>
      simp [NexusChild.write_label, NexusChild.writeAt, writeRequests,
        writeOk, hh]
  · rcases h0 : env.write_at 0 data.mbr with e | v0
    · right
      refine ⟨0, by omega, ?_, ?_, ?_, ?_⟩ <;>
        simp [NexusChild.write_label, NexusChild.writeAt, writeRequests,
          writeOk, hh, h0]
    · rcases h1 : env.write_at (u64mul block_size label.primary.lba_self)
        data.primary with e | v1
      · right
        refine ⟨1, by omega, ?_, ?_, ?_, ?_⟩
        · simp [NexusChild.write_label, NexusChild.writeAt, writeRequests,
            hh, h0, h1]
        · simp [NexusChild.write_label, NexusChild.writeAt, hh, h0, h1]
        · simp [writeRequests, writeOk, hh, h1]
        · intro j hj
          interval_cases j
          simp [writeRequests, writeOk, hh, h0]
      · rcases h2 : env.write_at (u64mul block_size label.primary.lba_table)
          data.table with e | v2
        · right
          refine ⟨2, by omega, ?_, ?_, ?_, ?_⟩
          · simp [NexusChild.write_label, NexusChild.writeAt, writeRequests,
              hh, h0, h1, h2]
          · simp [NexusChild.write_label, NexusChild.writeAt, hh, h0, h1, h2]
          · simp [writeRequests, writeOk, hh, h2]
          · intro j hj
            interval_cases j <;>
              simp [writeRequests, writeOk, hh, h0, h1]
        · rcases h3 : env.write_at
            (u64mul block_size label.secondary.lba_table) data.table
            with e | v3
          · right
            refine ⟨3, by omega, ?_, ?_, ?_, ?_⟩
            · simp [NexusChild.write_label, NexusChild.writeAt, writeRequests,
                hh, h0, h1, h2, h3]
            · simp [NexusChild.write_label, NexusChild.writeAt,
                hh, h0, h1, h2, h3]
            · simp [writeRequests, writeOk, hh, h3]
            · intro j hj
              interval_cases j <;>
                simp [writeRequests, writeOk, hh, h0, h1, h2]
          · rcases h4 : env.write_at
              (u64mul block_size label.secondary.lba_self) data.secondary
              with e | v4
            · right
              refine ⟨4, by omega, ?_, ?_, ?_, ?_⟩
              · simp [NexusChild.write_label, NexusChild.writeAt,
                  writeRequests, hh, h0, h1, h2, h3, h4]
              · simp [NexusChild.write_label, NexusChild.writeAt,
                  hh, h0, h1, h2, h3, h4]
              · simp [writeRequests, writeOk, hh, h4]
              · intro j hj
                interval_cases j <;>
                  simp [writeRequests, writeOk, hh, h0, h1, h2, h3]
            · left
              refine ⟨?_, ?_, ?_⟩
              · simp [NexusChild.write_label, NexusChild.writeAt,
                  writeRequests, hh, h0, h1, h2, h3, h4]
              · simp [NexusChild.write_label, NexusChild.writeAt,
                  hh, h0, h1, h2, h3, h4]
              · intro j hj
                interval_cases j <;>
                  simp [writeRequests, writeOk, hh, h0, h1, h2, h3, h4]

/-- Witness for C1: at the concrete all-success run the five writes are
issued exactly in code order. -/
theorem write_label_order_amended_witness :
    (childOpen.write_label envW labelW dataW 512).1 =
      writeRequests labelW dataW 512 := by
  rcases write_label_order_amended childOpen envW labelW dataW 512 with
    ⟨h, _, _⟩ | ⟨k, _, _, hfail, _, _⟩
  · exact h
  · exact absurd hfail (by decide)

/-- Claim C10 (confirmed): on a successful write_label run the third and
fourth writes, the primary and secondary partition-table copies, carry the
same serialized buffer data.table at the two recorded table locations. -/
theorem write_label_same_table (c : NexusChild) (env : WriteEnv)
    (label : NexusLabel) (data : LabelData) (block_size : Nat)
    (hok : (c.write_label env label data block_size).2 = Except.ok ()) :
    (c.write_label env label data block_size).1.getD 2 (0, []) =
      (u64mul block_size label.primary.lba_table, data.table) ∧
    (c.write_label env label data block_size).1.getD 3 (0, []) =
      (u64mul block_size label.secondary.lba_table, data.table) := by
  rcases hh : c.bdev_handle with _ | d
  · exact absurd hok (by simp [NexusChild.write_label, NexusChild.writeAt, hh])
  · rcases h0 : env.write_at 0 data.mbr with e | v0
    · exact absurd hok
        (by simp [NexusChild.write_label, NexusChild.writeAt, hh, h0])
    · rcases h1 : env.write_at (u64mul block_size label.primary.lba_self)
        data.primary with e | v1
      · exact absurd hok
          (by simp [NexusChild.write_label, NexusChild.writeAt, hh, h0, h1])
      · rcases h2 : env.write_at (u64mul block_size label.primary.lba_table)
          data.table with e | v2
        · exact absurd hok
            (by simp [NexusChild.write_label, NexusChild.writeAt,
              hh, h0, h1, h2])
        · rcases h3 : env.write_at
            (u64mul block_size label.secondary.lba_table) data.table
            with e | v3
          · exact absurd hok
              (by simp [NexusChild.write_label, NexusChild.writeAt,
                hh, h0, h1, h2, h3])
          · rcases h4 : env.write_at
              (u64mul block_size label.secondary.lba_self) data.secondary
              with e | v4
            · exact absurd hok
                (by simp [NexusChild.write_label, NexusChild.writeAt,
                  hh, h0, h1, h2, h3, h4])
            · constructor <;>
                simp [NexusChild.write_label, NexusChild.writeAt,
                  hh, h0, h1, h2, h3, h4]

/-- Witness for C10: the concrete all-success run writes dataW.table at
the primary table offset 1024 and at the secondary table offset 34304. -/
theorem write_label_same_table_witness :
    (childOpen.write_label envW labelW dataW 512).1.getD 2 (0, []) =
      (u64mul 512 labelW.primary.lba_table, dataW.table) ∧
    (childOpen.write_label envW labelW dataW 512).1.getD 3 (0, []) =
      (u64mul 512 labelW.secondary.lba_table, dataW.table) :=
  write_label_same_table childOpen envW labelW dataW 512 (by decide)

/-- Helper: every share call that returns preserves the export invariant. -/
theorem share_preserves_invariant (n : Nexus) (p : ShareProtocolNexus)
    (key : Option String) (env : ShareEnv) (n' : Nexus)
    (effs : List ShareEffect) (r : Except NexusError String)
    (hinv : exportInvariant n)
    (hsh : n.share p key env = some (n', effs, r)) :
    exportInvariant n' := by
  by_cases hh : n.share_handle = none
  · rcases hp : n.share_protocol with _ | pr
    · rcases key with _ | k
      · rcases p with _ | _ | _
        · rcases hc : env.nbd_create n.name with e | disk <;>
            · simp [Nexus.share, hh, hp, hc] at hsh
              rcases hsh with ⟨h1, -, -⟩
              simp [← h1, exportInvariant, hh, hp]
        · rcases hc : env.iscsi_create n.name with e | tgt <;>
            · simp [Nexus.share, hh, hp, hc] at hsh
              rcases hsh with ⟨h1, -, -⟩
              simp [← h1, exportInvariant, hh, hp]
        · simp [Nexus.share, hh, hp] at hsh
          rcases hsh with ⟨h1, -, -⟩
          simp [← h1, exportInvariant, hh, hp]
      · by_cases hnul : (hasNulByte n.name || hasNulByte k) = true
        · simp [Nexus.share, hh, hp, hnul] at hsh
        · by_cases hcr : env.crypto_errno = 0
          · rcases p with _ | _ | _
            · rcases hc : env.nbd_create ("crypto-" ++ n.name) with e | disk <;>
                · simp [Nexus.share, hh, hp, hnul, hcr, hc] at hsh
                  rcases hsh with ⟨h1, -, -⟩
                  simp [← h1, exportInvariant, hh, hp]
            · rcases hc : env.iscsi_create ("crypto-" ++ n.name)
                with e | tgt <;>
                · simp [Nexus.share, hh, hp, hnul, hcr, hc] at hsh
                  rcases hsh with ⟨h1, -, -⟩
                  simp [← h1, exportInvariant, hh, hp]
            · simp [Nexus.share, hh, hp, hnul, hcr] at hsh
              rcases hsh with ⟨h1, -, -⟩
              simp [← h1, exportInvariant, hh, hp]
          · simp [Nexus.share, hh, hp, hnul, hcr] at hsh
            rcases hsh with ⟨h1, -, -⟩
            simp [← h1, exportInvariant, hh, hp]
    · simp [Nexus.share, hh, hp] at hsh
      rcases hsh with ⟨h1, -, -⟩
      rw [← h1]
      exact hinv
  · simp [Nexus.share, hh] at hsh

/-- Helper: the four possible outcomes of unshare: a panic, an error that
leaves the nexus unchanged, a success clearing both export fields, or a
crypto-destruction failure clearing the handle while retaining the
protocol. -/
theorem unshare_cases (n : Nexus) (env : UnshareEnv) :
    n.unshare env = none ∨
    (∃ nm, n.unshare env = some (n, Except.error (NexusError.NotShared nm))) ∨
    (∃ v, n.unshare env =
      some (n, Except.error (NexusError.InvalidShareProtocol v))) ∨
    (∃ n', n.unshare env = some (n', Except.ok ()) ∧
      n'.share_handle = none ∧ n'.share_protocol = none) ∨
    (∃ n' e nm, n.unshare env =
        some (n', Except.error (NexusError.DestroyCryptoBdev e nm)) ∧
      n'.share_handle = none ∧ n'.share_protocol = n.share_protocol) := by
  rcases hp : n.share_protocol with _ | pr
  · exact Or.inr (Or.inl ⟨n.name, by simp [Nexus.unshare, hp]⟩)
  · rcases pr with _ | _ | _
    · rcases hd : n.nbd_disk with _ | disk
      · exact Or.inr (Or.inl ⟨n.name, by simp [Nexus.unshare, hp, hd]⟩)
      · rcases hsh : n.share_handle with _ | bn
        · exact Or.inl (by simp [Nexus.unshare, hp, hd, hsh])
        · rcases hlk : env.lookup_by_name bn with _ | bdev
          · exact Or.inr (Or.inr (Or.inr (Or.inl
              ⟨{ n with nbd_disk := none, share_handle := none, share_protocol := none },
                by simp [Nexus.unshare, hp, hd, hsh, hlk], rfl, rfl⟩)))
          · by_cases hne : n.name = bdev.name
            · exact Or.inr (Or.inr (Or.inr (Or.inl
                ⟨{ n with nbd_disk := none, share_handle := none, share_protocol := none },
                  by simp [Nexus.unshare, hp, hd, hsh, hlk, hne], rfl, rfl⟩)))
            · by_cases herr : env.delete_crypto_errno = 0
              · exact Or.inr (Or.inr (Or.inr (Or.inl
                  ⟨{ n with nbd_disk := none, share_handle := none, share_protocol := none },
                    by simp [Nexus.unshare, hp, hd, hsh, hlk, hne, herr],
                    rfl, rfl⟩)))
              · exact Or.inr (Or.inr (Or.inr (Or.inr
                  ⟨{ n with nbd_disk := none, share_handle := none },
                    env.delete_crypto_errno, n.name,
                    by simp [Nexus.unshare, hp, hd, hsh, hlk, hne, herr],
                    rfl, by simp [hp]⟩)))
    · rcases hd : n.iscsi_target with _ | tgt
      · exact Or.inr (Or.inl ⟨n.name, by simp [Nexus.unshare, hp, hd]⟩)
      · rcases hsh : n.share_handle with _ | bn
        · exact Or.inl (by simp [Nexus.unshare, hp, hd, hsh])
        · rcases hlk : env.lookup_by_name bn with _ | bdev
          · exact Or.inr (Or.inr (Or.inr (Or.inl
              ⟨{ n with iscsi_target := none, share_handle := none, share_protocol := none },
                by simp [Nexus.unshare, hp, hd, hsh, hlk], rfl, rfl⟩)))
          · by_cases hne : n.name = bdev.name
            · exact Or.inr (Or.inr (Or.inr (Or.inl
                ⟨{ n with iscsi_target := none, share_handle := none, share_protocol := none },
                  by simp [Nexus.unshare, hp, hd, hsh, hlk, hne], rfl, rfl⟩)))
            · by_cases herr : env.delete_crypto_errno = 0
              · exact Or.inr (Or.inr (Or.inr (Or.inl
                  ⟨{ n with iscsi_target := none, share_handle := none, share_protocol := none },
                    by simp [Nexus.unshare, hp, hd, hsh, hlk, hne, herr],
                    rfl, rfl⟩)))
              · exact Or.inr (Or.inr (Or.inr (Or.inr
                  ⟨{ n with iscsi_target := none, share_handle := none },
                    env.delete_crypto_errno, n.name,
                    by simp [Nexus.unshare, hp, hd, hsh, hlk, hne, herr],
                    rfl, by simp [hp]⟩)))
    · exact Or.inr (Or.inr (Or.inl ⟨2, by simp [Nexus.unshare, hp,
        ShareProtocolNexus.toI32]⟩))

/-- Counterexample to claim C3: a nexus shared over iscsi through a crypto
layer satisfies the invariant, yet when crypto destruction fails unshare
returns with the share handle cleared and the share protocol still set,
violating the invariant. -/
theorem unshare_invariant_cex :
    exportInvariant nexC ∧
    Nexus.unshare nexC envU =
      some (nexCAfter, Except.error (NexusError.DestroyCryptoBdev 5 "nex")) ∧
    ¬ exportInvariant nexCAfter := by decide

/-- Claim C3 (corrected): the export invariant is preserved by every share
call; unshare clears both share_protocol and share_handle on success, and
leaves the nexus unchanged on a NotShared or InvalidShareProtocol error,
but when crypto-layer destruction fails it has already cleared
share_handle while share_protocol is retained, so the invariant is broken
on that error return. -/
theorem export_invariant_amended :
    (∀ (n : Nexus) (p : ShareProtocolNexus) (key : Option String)
      (env : ShareEnv) (n' : Nexus) (effs : List ShareEffect)
      (r : Except NexusError String),
      exportInvariant n → n.share p key env = some (n', effs, r) →
      exportInvariant n') ∧
    (∀ (n : Nexus) (env : UnshareEnv) (n' : Nexus) (u : Unit),
      n.unshare env = some (n', Except.ok u) →
      n'.share_handle = none ∧ n'.share_protocol = none) ∧
    (∀ (n : Nexus) (env : UnshareEnv) (n' : Nexus) (e : Errno) (nm : String),
      n.unshare env =
        some (n', Except.error (NexusError.DestroyCryptoBdev e nm)) →
      n'.share_handle = none ∧ n'.share_protocol = n.share_protocol) ∧
    (∀ (n : Nexus) (env : UnshareEnv) (n' : Nexus) (nm : String),
      n.unshare env = some (n', Except.error (NexusError.NotShared nm)) →
      n' = n) ∧
    (∀ (n : Nexus) (env : UnshareEnv) (n' : Nexus) (v : Nat),
      n.unshare env =
        some (n', Except.error (NexusError.InvalidShareProtocol v)) →
      n' = n) := by
  refine ⟨share_preserves_invariant, ?_, ?_, ?_, ?_⟩
  · intro n env n' u h
    rcases unshare_cases n env with h0 | ⟨nm, h1⟩ | ⟨v, h1⟩ |
        ⟨m, h1, h2, h3⟩ | ⟨m, e, nm, h1, h2, h3⟩
    · rw [h0] at h; exact Option.noConfusion h
    · rw [h1] at h; simp at h
    · rw [h1] at h; simp at h
    · rw [h1] at h
      simp at h
      rw [← h]
      exact ⟨h2, h3⟩
    · rw [h1] at h; simp at h
  · intro n env n' e nm h
    rcases unshare_cases n env with h0 | ⟨nm2, h1⟩ | ⟨v, h1⟩ |
        ⟨m, h1, h2, h3⟩ | ⟨m, e2, nm2, h1, h2, h3⟩
    · rw [h0] at h; exact Option.noConfusion h
    · rw [h1] at h; simp at h
    · rw [h1] at h; simp at h
    · rw [h1] at h; simp at h
    · rw [h1] at h
      simp at h
      rcases h with ⟨hm, -, -⟩
      rw [← hm]
      exact ⟨h2, h3⟩
  · intro n env n' nm h
    rcases unshare_cases n env with h0 | ⟨nm2, h1⟩ | ⟨v, h1⟩ |
        ⟨m, h1, h2, h3⟩ | ⟨m, e2, nm2, h1, h2, h3⟩
    · rw [h0] at h; exact Option.noConfusion h
    · rw [h1] at h
      simp at h
      exact h.1.symm
    · rw [h1] at h; simp at h
    · rw [h1] at h; simp at h
    · rw [h1] at h; simp at h
  · intro n env n' v h
    rcases unshare_cases n env with h0 | ⟨nm2, h1⟩ | ⟨v2, h1⟩ |
        ⟨m, h1, h2, h3⟩ | ⟨m, e2, nm2, h1, h2, h3⟩
    · rw [h0] at h; exact Option.noConfusion h
    · rw [h1] at h; simp at h
    · rw [h1] at h
      simp at h
      exact h.1.symm
    · rw [h1] at h; simp at h
    · rw [h1] at h; simp at h

/-- Witness for C3: the crypto-destruction failure run applied through the
theorem: after it the handle is cleared and the iscsi protocol retained. -/
theorem export_invariant_amended_witness :
    nexCAfter.share_handle = none ∧
    nexCAfter.share_protocol = nexC.share_protocol :=
  export_invariant_amended.2.2.1 nexC envU nexCAfter 5 "nex" (by decide)

/-- Counterexample to claim C6: sharing an unshared nexus over NvmfFe with
an encryption key creates the crypto layer before the protocol check, so a
resource is created even though the call fails with InvalidShareProtocol. -/
theorem share_nvmf_cex :
    Nexus.share nexU ShareProtocolNexus.NvmfFe (some "k") envS =
      some (nexU, [ShareEffect.cryptoCreated "nex" "crypto-nex"],
        Except.error (NexusError.InvalidShareProtocol 2)) ∧
    [ShareEffect.cryptoCreated "nex" "crypto-nex"] ≠
      ([] : List ShareEffect) := by decide

/-- Claim C6 (corrected): share over NvmfFe on an unshared nexus never
creates an export backend and leaves the nexus unchanged, so share_handle
and share_protocol stay None; with no encryption key it fails immediately
with InvalidShareProtocol carrying value 2 and creates nothing, but with a
key the crypto layer is created (and not destroyed) before the protocol
check, and only a crypto-creation failure preempts InvalidShareProtocol. -/
theorem share_nvmf_amended (n : Nexus) (key : Option String) (env : ShareEnv)
    (n' : Nexus) (effs : List ShareEffect) (r : Except NexusError String)
    (hh : n.share_handle = none) (hp : n.share_protocol = none)
    (hsh : n.share ShareProtocolNexus.NvmfFe key env = some (n', effs, r)) :
    n' = n ∧
    (∀ ef ∈ effs, ∃ b c, ef = ShareEffect.cryptoCreated b c) ∧
    (key = none → effs = [] ∧
      r = Except.error (NexusError.InvalidShareProtocol 2)) ∧
    (env.crypto_errno = 0 →
      r = Except.error (NexusError.InvalidShareProtocol 2)) := by
  rcases key with _ | k
  · simp [Nexus.share, hh, hp, ShareProtocolNexus.toI32] at hsh
    rcases hsh with ⟨h1, h2, h3⟩
    refine ⟨h1.symm, ?_, ?_, ?_⟩
    · rw [h2]; simp
    · exact fun _ => ⟨h2, h3.symm⟩
    · exact fun _ => h3.symm
  · by_cases hnul : (hasNulByte n.name || hasNulByte k) = true
    · simp [Nexus.share, hh, hp, hnul] at hsh
    · by_cases hcr : env.crypto_errno = 0
      · simp [Nexus.share, hh, hp, hnul, hcr,
          ShareProtocolNexus.toI32] at hsh
        rcases hsh with ⟨h1, h2, h3⟩
        refine ⟨h1.symm, ?_, ?_, ?_⟩
        · rw [← h2]
          intro ef hef
          simp at hef
          exact ⟨n.name, "crypto-" ++ n.name, hef⟩
        · intro hk; exact absurd hk (by simp)
        · exact fun _ => h3.symm
      · simp [Nexus.share, hh, hp, hnul, hcr] at hsh
        rcases hsh with ⟨h1, h2, h3⟩
        refine ⟨h1.symm, ?_, ?_, ?_⟩
        · rw [h2]; simp
        · intro hk; exact absurd hk (by simp)
        · intro h0; exact absurd h0 hcr

/-- Witness for C6: the keyless run on the concrete unshared nexus fails
with InvalidShareProtocol 2, creates nothing and leaves the nexus as it
was. -/
theorem share_nvmf_amended_witness :
    nexU = nexU ∧
    (∀ ef ∈ ([] : List ShareEffect), ∃ b c,
      ef = ShareEffect.cryptoCreated b c) ∧
    ((none : Option String) = none → ([] : List ShareEffect) = [] ∧
      (Except.error (NexusError.InvalidShareProtocol 2) :
        Except NexusError String) =
        Except.error (NexusError.InvalidShareProtocol 2)) ∧
    (envS.crypto_errno = 0 →
      (Except.error (NexusError.InvalidShareProtocol 2) :
        Except NexusError String) =
        Except.error (NexusError.InvalidShareProtocol 2)) :=
  share_nvmf_amended nexU none envS nexU []
    (Except.error (NexusError.InvalidShareProtocol 2)) rfl rfl (by decide)
